import Mathlib

/-!
Verification of the onepiece_tube_mangas backend against its specification.

The definitions below are a shallow embedding of the Python sources under
`src/backend/`: pure computations become Lean functions, filesystem and
network effects become explicit state (an association list of files) and
explicit outcome parameters (an `Except` value for a request that may
raise), and Python's truthiness tests are modelled explicitly where the
code relies on them.
-/

namespace OnePieceTube

/-! ### Character-level string helpers

Python compares `str` values lexicographically by code point, tests
substring membership with `in`, and splits URLs with `str.split`.  The
helpers below implement those operations over `String.data` so that every
definition evaluates inside the kernel.
-/

/-- Lexicographic comparison of char lists by code point, the order Python
uses for `str` comparison (and hence for `list.sort` on filenames). -/
def charListLe : List Char → List Char → Bool
  | [], _ => true
  | _ :: _, [] => false
  | a :: as, b :: bs =>
    if a = b then charListLe as bs
    else decide (a.toNat < b.toNat)

/-- Python's `<=` on strings: lexicographic by code point. -/
def strLe (a b : String) : Prop := charListLe a.data b.data = true

instance : DecidableRel strLe := fun a b =>
  inferInstanceAs (Decidable (charListLe a.data b.data = true))

/-- Match a literal character sequence at the front of a list, returning the
remainder on success. -/
def dropLit : List Char → List Char → Option (List Char)
  | [], rest => some rest
  | _ :: _, [] => none
  | l :: ls, c :: cs => if c = l then dropLit ls cs else none

/-- Python's substring test `pat in s`, scanning every start position. -/
def charsContain (pat : List Char) : List Char → Bool
  | [] => pat.isEmpty
  | c :: rest => (dropLit pat (c :: rest)).isSome || charsContain pat rest

/-- Accumulate the characters after the last `/`, implementing
`url.split("/")[-1]` from `download_chapter` (downloader.py:290). -/
def lastSegmentAux (cur : List Char) : List Char → List Char
  | [] => cur
  | c :: rest => if c = '/' then lastSegmentAux [] rest else lastSegmentAux (cur ++ [c]) rest

/-- Basename of a URL: `url.split("/")[-1]`. -/
def lastSegment (url : String) : String := ⟨lastSegmentAux [] url.data⟩

/-- Parse an unsigned decimal digit string, accumulator style. -/
def pyIntOfDigits (acc : Nat) : List Char → Option Nat
  | [] => some acc
  | c :: rest =>
    if c.isDigit then pyIntOfDigits (10 * acc + (c.toNat - '0'.toNat)) rest else none

/-- Python's `int(name)` on a directory name as used by
`_get_highest_downloaded` (scheduler.py:93): `some` the parsed value for a
(possibly negated) decimal numeral, `none` where `int` raises `ValueError`. -/
def pyInt (s : String) : Option Int :=
  match s.data with
  | [] => none
  | '-' :: rest =>
    if rest.isEmpty then none else (pyIntOfDigits 0 rest).map fun n => -(n : Int)
  | ds => (pyIntOfDigits 0 ds).map fun n => (n : Int)

/-! ### Data model

`fetch_mangaliste_entries` returns a list of entry dicts; per the data
model each entry carries a public chapter `number` and a German title
`name` (utils.py:180-185, spec §3). -/

/-- One chapter entry of the resolver's snapshot. -/
structure Entry where
  number : Int
  name : String
deriving DecidableEq

/-! ### Scheduler startup watermark (scheduler.py:64-96, claim C1) -/

/-- Python's `a or b` on an optional integer `a`: `a` unless it is falsy
(`None` or `0`), else `b`. -/
def pyOrInt (a : Option Int) (b : Int) : Int :=
  match a with
  | none => b
  | some x => if x = 0 then b else x

/-- Translation of `UpdateScheduler._get_highest_downloaded`
(scheduler.py:80-96): parse every storage subdirectory name as an integer,
skip the unparsable ones, and return the maximum, or `None` when no
chapter directory exists. -/
def getHighestDownloaded (subdirNames : List String) : Option Int :=
  (subdirNames.filterMap pyInt).max?

/-- Translation of `ChapterNotifier.get_latest_number`
(notification.py:90-101): `None` on an empty snapshot, else the maximum
`number`. -/
def getLatestNumber (entries : List Entry) : Option Int :=
  if entries.isEmpty then none else (entries.map Entry.number).max?

/-- Translation of the watermark initialization in
`UpdateScheduler.__init__` (scheduler.py:77-78):
`downloaded or (notifier.get_latest_number() or 0)`. -/
def initCurrentLatest (subdirNames : List String) (entries : List Entry) : Int :=
  pyOrInt (getHighestDownloaded subdirNames) (pyOrInt (getLatestNumber entries) 0)

/-! ### Fail-soft refresh (notification.py:74-88, claim C7) -/

/-- Translation of `ChapterNotifier.refresh`: the fetch either returns a
fresh entries list or raises; the `except` arm keeps the cached list. -/
def refreshEntries (entries : List Entry) (fetchResult : Except Unit (List Entry)) :
    List Entry :=
  match fetchResult with
  | .ok newEntries => newEntries
  | .error _ => entries

/-! ### On-disk state and asset download (downloader.py:116-144, claims C2, C4)

The filesystem is an association list from paths to byte contents; a
lookup returns the most recent write.  `_download_image`'s effects are:
skip when the destination exists, otherwise GET the URL (which may fail),
then write the full response body to the destination path with a plain
`open(dest, "wb")` / `f.write` — the write itself may fail after any
number of bytes, which the `writeFailAfter` parameter models. -/

/-- Byte contents of stored files, newest write first. -/
abbrev Fs := List (String × List Nat)

/-- Look up the current contents at a path. -/
def fsLookup (fs : Fs) (p : String) : Option (List Nat) :=
  match fs with
  | [] => none
  | (q, c) :: rest => if q = p then some c else fsLookup rest p

/-- Record a write at a path (shadowing any previous contents). -/
def fsWrite (fs : Fs) (p : String) (c : List Nat) : Fs := (p, c) :: fs

/-- Outcome of one `_download_image` call. -/
inductive DlStatus where
  | ok
  | httpError
  | ioError
deriving DecidableEq

/-- State after one `_download_image` call: the filesystem, the list of
URLs actually requested over the network, and the outcome. -/
structure DlResult where
  fs : Fs
  requested : List String
  status : DlStatus
deriving DecidableEq

/-- Translation of `ChapterDownloader._download_image`
(downloader.py:116-144).  `response` is the result of `session.get` plus
`raise_for_status` (`.error` for a network failure or non-success
status); `writeFailAfter = some k` models an `IOError` after `k` bytes of
the body were written, `none` a write that completes. -/
def downloadImage (fs : Fs) (url : String) (destPath : String)
    (response : Except Unit (List Nat)) (writeFailAfter : Option Nat) : DlResult :=
  if (fsLookup fs destPath).isSome then ⟨fs, [], .ok⟩
  else
    match response with
    | .error _ => ⟨fs, [url], .httpError⟩
    | .ok content =>
      match writeFailAfter with
      | none => ⟨fsWrite fs destPath content, [url], .ok⟩
      | some k => ⟨fsWrite fs destPath (content.take k), [url], .ioError⟩

/-! ### Chapter download and packaging (downloader.py:249-300, claims C3, C4) -/

/-- One page descriptor from the chapter metadata; `url` is `none` when the
`url` key is absent (`page.get("url")`). -/
structure Page where
  url : Option String
deriving DecidableEq

/-- Chapter metadata as returned by `fetch_chapter_data`: the German title
and the page list, in the order the site returned them. -/
structure ChapterMeta where
  name : String
  pages : List Page
deriving DecidableEq

/-- Local filenames saved by the page loop of `download_chapter`
(downloader.py:284-293): pages whose `url` is missing or falsy are
skipped, the rest are saved under the basename of their URL, in arrival
order. -/
def savedFilenames (pages : List Page) : List String :=
  pages.filterMap fun p =>
    match p.url with
    | none => none
    | some u => if u = "" then none else some (lastSegment u)

/-- State after the page loop of `download_chapter`. -/
structure PagesRun where
  fs : Fs
  names : List String
  requested : List String
deriving DecidableEq

/-- Translation of the page loop of `download_chapter`
(downloader.py:283-293), in a run where every request succeeds (an image
failure would abort the whole call): for each page with a present,
non-empty URL, derive the destination from the URL basename and call
`_download_image`; collect the saved filenames in arrival order. -/
def downloadPages (imagesDir : String) (body : String → List Nat) :
    Fs → List Page → PagesRun
  | fs, [] => ⟨fs, [], []⟩
  | fs, p :: rest =>
    match p.url with
    | none => downloadPages imagesDir body fs rest
    | some u =>
      if u = "" then downloadPages imagesDir body fs rest
      else
        let name := lastSegment u
        let destPath := imagesDir ++ "/" ++ name
        let res := downloadImage fs u destPath (.ok (body u)) none
        let tail := downloadPages imagesDir body res.fs rest
        ⟨tail.fs, name :: tail.names, res.requested ++ tail.requested⟩

/-- State after one `download_chapter` call: the filesystem, the image
filenames in package (reading) order — the order `_create_epub` receives
and emits them (downloader.py:181-238) — the returned package path, and
the URLs requested. -/
structure ChapterRun where
  fs : Fs
  ordered : List String
  epubPath : String
  requested : List String
deriving DecidableEq

/-- Translation of `ChapterDownloader.download_chapter`
(downloader.py:249-300) for a run where every request succeeds: run the
page loop, sort the saved filenames lexicographically
(`image_paths.sort(key=lambda p: p.name)`), and build the package at
`storage_dir/<chapter>/onepiece_<chapter>.epub`. -/
def downloadChapterRun (storageDir : String) (fs : Fs) (chapter : Int)
    (meta : ChapterMeta) (body : String → List Nat) : ChapterRun :=
  let chapterDir := storageDir ++ "/" ++ toString chapter
  let imagesDir := chapterDir ++ "/images"
  let run := downloadPages imagesDir body fs meta.pages
  let ordered := List.insertionSort strLe run.names
  let epubPath := chapterDir ++ "/onepiece_" ++ toString chapter ++ ".epub"
  ⟨run.fs, ordered, epubPath, run.requested⟩

/-! ### Update detection (notification.py:103-121, claim C5) -/

/-- Ascending order on entries by chapter number, the key
`sorted(..., key=lambda x: x["number"])` sorts by. -/
def entryLe (a b : Entry) : Prop := a.number ≤ b.number

instance : DecidableRel entryLe := fun a b => Int.decLe a.number b.number

/-- Translation of `ChapterNotifier.check_for_update`
(notification.py:103-121) on the snapshot held after the leading
`refresh`: keep the entries with `number > current_latest` and sort them
ascending by number (Python's sort is stable, as is insertion sort). -/
def checkForUpdate (entries : List Entry) (currentLatest : Int) : List Entry :=
  List.insertionSort entryLe (entries.filter fun e => currentLatest < e.number)

/-! ### Chapter metadata fetch and failure classification
(utils.py:280-314, claim C6) -/

/-- The two failure kinds of `fetch_chapter_data`: `notAvailable` is the
`ValueError` for a missing chapter, `parseError` the `RuntimeError` for a
body without the embedded data block. -/
inductive FetchFailure where
  | notAvailable
  | parseError
deriving DecidableEq

deriving instance DecidableEq for Except

/-- Result of `fetch_chapter_data` together with whether the code reached
the data-extraction step (the `re.search` over the body). -/
structure FetchOutcome where
  result : Except FetchFailure String
  attemptedExtraction : Bool
deriving DecidableEq

/-- The explicit unavailability marker tested with `in` (utils.py:296). -/
def unavailabilityMarker : String := "Dieses Kapitel ist aktuell nicht verf"

/-- Python's `unavailabilityMarker in html`. -/
def containsMarker (html : String) : Bool :=
  charsContain unavailabilityMarker.data html.data

/-- Drop the Python `\s` characters (space, tab, newline, return, vertical
tab, form feed) from the front of a char list. -/
def isPySpace (c : Char) : Bool :=
  c = ' ' || c = '\t' || c = '\n' || c = '\r' || c = '\x0b' || c = '\x0c'

/-- Skip leading whitespace, for the `\s*` parts of the pattern. -/
def dropWs : List Char → List Char
  | [] => []
  | c :: rest => if isPySpace c then dropWs rest else c :: rest

/-- Scan for the closing brace of the non-greedy group `\{.*?\}\s*;`: the
interior extends to the first `}` that is followed by optional whitespace
and a `;`.  Returns the interior (reversed accumulator flipped) and the
remainder. -/
def findCloseBrace (seen : List Char) : List Char → Option (List Char × List Char)
  | [] => none
  | c :: rest =>
    if c = '}' && (match dropWs rest with | ';' :: _ => true | _ => false) then
      some (seen.reverse, rest)
    else findCloseBrace (c :: seen) rest

/-- Try to match `window\.__data\s*=\s*(\{.*?\})\s*;` at the current
position, returning the braced group on success. -/
def matchWindowData (cs : List Char) : Option (List Char) :=
  match dropLit "window.__data".data cs with
  | none => none
  | some r1 =>
    match dropWs r1 with
    | '=' :: r2 =>
      match dropWs r2 with
      | '{' :: r3 =>
        match findCloseBrace [] r3 with
        | none => none
        | some (interior, _) => some ('{' :: (interior ++ ['}']))
      | _ => none
    | _ => none

/-- Leftmost-start search, as `re.search` does: try the pattern at every
position. -/
def extractScan : List Char → Option (List Char)
  | [] => none
  | c :: rest =>
    match matchWindowData (c :: rest) with
    | some g => some g
    | none => extractScan rest

/-- The `re.search(r'window\.__data\s*=\s*(\{.*?\})\s*;', html, re.DOTALL)`
extraction of utils.py:307, returning the matched JSON text. -/
def extractWindowData (html : String) : Option String :=
  (extractScan html.data).map String.mk

/-- Translation of `fetch_chapter_data` (utils.py:280-314).  `status` and
`html` are the chapter-page response; `viewSourceHtml` is the body of the
`view-source:` request, `none` when that request raised and the code falls
back to `html`.  Decoding of the extracted JSON text is elided: the claim
concerns classification, which is settled before/at extraction. -/
def fetchChapterData (status : Nat) (html : String) (viewSourceHtml : Option String) :
    FetchOutcome :=
  if status = 404 then ⟨.error .notAvailable, false⟩
  else if containsMarker html then ⟨.error .notAvailable, false⟩
  else
    match extractWindowData (viewSourceHtml.getD html) with
    | none => ⟨.error .parseError, true⟩
    | some s => ⟨.ok s, true⟩

/-! ### Combined notifications (notification.py:177-259, claim C8) -/

/-- Aggregate results dict of `send_combined_notifications`. -/
structure NotifyResults where
  email_sent : Nat
  push_sent : Nat
  total_chapters : Nat
  chapters : List (Int × String)
deriving DecidableEq

/-- The web-push loop of `send_combined_notifications`
(notification.py:230-247): per entry, `web_push_service.send_notification`
returns a sent count or raises; a raise aborts the loop but the counts
and chapter records accumulated so far are kept. -/
def pushLoop (pushSend : Entry → Except Unit Nat) : List Entry → Nat × List (Int × String)
  | [] => (0, [])
  | e :: rest =>
    match pushSend e with
    | .error _ => (0, [])
    | .ok n =>
      let r := pushLoop pushSend rest
      (n + r.1, (e.number, e.name) :: r.2)

/-- Translation of `ChapterNotifier.send_combined_notifications`
(notification.py:177-259).  `emailOutcome` is the result of the
`send_email_notifications` call (its exception is caught and only logged);
`pushSend` gives each entry's push outcome. -/
def sendCombinedNotifications (newEntries : List Entry) (emailRecipient : Option String)
    (sendWebPush : Bool) (emailOutcome : Except Unit Unit)
    (pushSend : Entry → Except Unit Nat) : NotifyResults :=
  if newEntries.isEmpty then ⟨0, 0, 0, []⟩
  else
    let emailSent :=
      match emailRecipient, emailOutcome with
      | none, _ => 0
      | some _, .ok _ => newEntries.length
      | some _, .error _ => 0
    let push := if sendWebPush then pushLoop pushSend newEntries else (0, [])
    ⟨emailSent, push.1, newEntries.length, push.2⟩

/-! ### E-mail notifications (notification.py:123-175, claim C9) -/

/-- The failure kinds of `send_email_notifications`: the `KeyError` for an
incomplete SMTP configuration, or an SMTP failure from an individual send. -/
inductive EmailFailure where
  | keyError (missing : List String)
  | smtpError
deriving DecidableEq

/-- The credential keys validated up front (notification.py:156). -/
def requiredSmtpKeys : List String := ["host", "port", "username", "password", "sender"]

/-- The set difference `required_keys - self.smtp_config.keys()`
(notification.py:157), as the required keys not among the config keys. -/
def missingSmtpKeys (cfgKeys : List String) : List String :=
  requiredSmtpKeys.filter fun k => decide (k ∉ cfgKeys)

/-- The send loop of `send_email_notifications` (notification.py:160-175):
each entry triggers one `send_email_notification`, which may raise and
abort the loop.  Returns the outcome and the chapter numbers for which a
send was attempted. -/
def emailLoop (sendOutcome : Entry → Except Unit Unit) :
    List Entry → Except EmailFailure Unit × List Int
  | [] => (.ok (), [])
  | e :: rest =>
    match sendOutcome e with
    | .error _ => (.error .smtpError, [e.number])
    | .ok _ =>
      let r := emailLoop sendOutcome rest
      (r.1, e.number :: r.2)

/-- Translation of `ChapterNotifier.send_email_notifications`
(notification.py:123-175): return immediately on an empty batch, then
validate the credential set, then send one mail per entry. -/
def sendEmailNotifications (cfgKeys : List String) (newEntries : List Entry)
    (sendOutcome : Entry → Except Unit Unit) : Except EmailFailure Unit × List Int :=
  if newEntries.isEmpty then (.ok (), [])
  else
    if (missingSmtpKeys cfgKeys).isEmpty then emailLoop sendOutcome newEntries
    else (.error (.keyError (missingSmtpKeys cfgKeys)), [])

/-! ### Push subscriptions (web_push.py:96-155, claim C10) -/

/-- The `keys` sub-dict of a browser push subscription; each field is
`none` when the corresponding dict key is absent. -/
structure SubKeys where
  p256dh : Option String
  auth : Option String
deriving DecidableEq

/-- A push subscription dict; each field is `none` when the corresponding
dict key is absent. -/
structure Subscription where
  endpoint : Option String
  keys : Option SubKeys
deriving DecidableEq

/-- First validation of `WebPushService.subscribe` (web_push.py:112):
`all(key in subscription for key in ['endpoint', 'keys'])`. -/
def hasSubscriptionFields (s : Subscription) : Bool :=
  s.endpoint.isSome && s.keys.isSome

/-- Second validation of `WebPushService.subscribe` (web_push.py:116):
`all(key in subscription['keys'] for key in ['p256dh', 'auth'])`. -/
def hasRequiredSubKeys (s : Subscription) : Bool :=
  match s.keys with
  | none => false
  | some k => k.p256dh.isSome && k.auth.isSome

/-- A structurally valid subscription: both validations pass. -/
def validSubscription (s : Subscription) : Bool :=
  hasSubscriptionFields s && hasRequiredSubKeys s

/-- Translation of `WebPushService.subscribe` (web_push.py:96-132):
reject an invalid dict, answer `True` without storing for an
already-known endpoint, else append. -/
def subscribe (subs : List Subscription) (s : Subscription) :
    List Subscription × Bool :=
  if !hasSubscriptionFields s then (subs, false)
  else if !hasRequiredSubKeys s then (subs, false)
  else if subs.any fun ex => decide (ex.endpoint = s.endpoint) then (subs, true)
  else (subs ++ [s], true)

/-- Translation of `WebPushService.unsubscribe` (web_push.py:134-155):
keep the subscriptions with a different endpoint and report whether the
list shrank. -/
def unsubscribe (subs : List Subscription) (endpoint : String) :
    List Subscription × Bool :=
  let remaining := subs.filter fun sub => decide (sub.endpoint ≠ some endpoint)
  (remaining, decide (remaining.length < subs.length))

/-- The claimed invariant of the subscription store: every stored dict is
structurally valid and no two stored subscriptions share an endpoint. -/
def subsInvariant (subs : List Subscription) : Prop :=
  (∀ s ∈ subs, validSubscription s = true) ∧ (subs.map Subscription.endpoint).Nodup

/-! ### Concrete fixtures used by the witnesses -/

/-- A resolver snapshot with numbers 10, 12, 11, the example of spec §8. -/
def exampleSnapshot : List Entry := [⟨10, "A"⟩, ⟨12, "B"⟩, ⟨11, "C"⟩]

/-- Page metadata whose URLs arrive out of reading order. -/
def examplePagesShuffled : List Page :=
  [⟨some "https://cdn.example/c/03-04.jpg"⟩, ⟨some "https://cdn.example/c/01.jpg"⟩,
   ⟨some "https://cdn.example/c/05.jpg"⟩, ⟨some "https://cdn.example/c/02.jpg"⟩]

/-- The same pages in arrival order 01, 02, 03-04, 05. -/
def examplePagesSorted : List Page :=
  [⟨some "https://cdn.example/c/01.jpg"⟩, ⟨some "https://cdn.example/c/02.jpg"⟩,
   ⟨some "https://cdn.example/c/03-04.jpg"⟩, ⟨some "https://cdn.example/c/05.jpg"⟩]

/-- Chapter metadata built on the shuffled page list. -/
def exampleMeta : ChapterMeta := ⟨"Beispiel", examplePagesShuffled⟩

/-- Chapter metadata built on the sorted page list. -/
def exampleMetaSorted : ChapterMeta := ⟨"Beispiel", examplePagesSorted⟩

/-- A response-body environment assigning every URL a one-byte body. -/
def exampleBody : String → List Nat := fun _ => [7]

/-- An e-mail send that always succeeds. -/
def alwaysOkSend : Entry → Except Unit Unit := fun _ => .ok ()

/-- A push send that always reports 3 deliveries. -/
def alwaysOkPush : Entry → Except Unit Nat := fun _ => .ok 3

/-- A structurally valid subscription fixture. -/
def exampleSub : Subscription := ⟨some "https://push.example/ep1", some ⟨some "p", some "a"⟩⟩

/-! ## Proofs -/

/-! ### Order properties of the filename and entry comparisons -/

theorem char_toNat_inj {a b : Char} (h : a.toNat = b.toNat) : a = b := by
  have h2 : Char.ofNat a.toNat = Char.ofNat b.toNat := congrArg _ h
  rwa [Char.ofNat_toNat, Char.ofNat_toNat] at h2

theorem charListLe_total : ∀ as bs, charListLe as bs = true ∨ charListLe bs as = true
  | [], _ => Or.inl rfl
  | _ :: _, [] => Or.inr rfl
  | a :: as, b :: bs => by
    by_cases hab : a = b
    · subst hab
      simpa [charListLe] using charListLe_total as bs
    · have hba : ¬b = a := fun h => hab h.symm
      have hne : a.toNat ≠ b.toNat := fun h => hab (char_toNat_inj h)
      rcases Nat.lt_or_ge a.toNat b.toNat with h | h
      · left
        simp [charListLe, hab, h]
      · have hlt : b.toNat < a.toNat := lt_of_le_of_ne h hne.symm
        right
        simp [charListLe, hba, hlt]

theorem charListLe_trans :
    ∀ as bs cs, charListLe as bs = true → charListLe bs cs = true →
      charListLe as cs = true
  | [], _, _ => by simp [charListLe]
  | _ :: _, [], _ => by simp [charListLe]
  | _ :: _, _ :: _, [] => by simp [charListLe]
  | a :: as, b :: bs, c :: cs => by
    intro h1 h2
    by_cases hab : a = b <;> by_cases hbc : b = c
    · subst hab; subst hbc
      simp only [charListLe, if_pos rfl] at h1 h2 ⊢
      exact charListLe_trans as bs cs h1 h2
    · subst hab
      simpa [charListLe, hbc] using h2
    · subst hbc
      simpa [charListLe, hab] using h1
    · simp only [charListLe, if_neg hab, decide_eq_true_eq] at h1
      simp only [charListLe, if_neg hbc, decide_eq_true_eq] at h2
      have hlt : a.toNat < c.toNat := lt_trans h1 h2
      have hac : ¬a = c := fun h => absurd (congrArg Char.toNat h) (Nat.ne_of_lt hlt)
      simp [charListLe, hac, hlt]

theorem charListLe_antisymm :
    ∀ as bs, charListLe as bs = true → charListLe bs as = true → as = bs
  | [], [] => fun _ _ => rfl
  | [], _ :: _ => by simp [charListLe]
  | _ :: _, [] => by simp [charListLe]
  | a :: as, b :: bs => by
    intro h1 h2
    by_cases hab : a = b
    · subst hab
      simp only [charListLe, if_pos rfl] at h1 h2
      rw [charListLe_antisymm as bs h1 h2]
    · have hba : ¬b = a := fun h => hab h.symm
      simp only [charListLe, if_neg hab, decide_eq_true_eq] at h1
      simp only [charListLe, if_neg hba, decide_eq_true_eq] at h2
      exact absurd h2 (Nat.lt_asymm h1)

instance : IsTotal String strLe :=
  ⟨fun a b => charListLe_total a.data b.data⟩

instance : IsTrans String strLe :=
  ⟨fun a b c => charListLe_trans a.data b.data c.data⟩

instance : IsAntisymm String strLe :=
  ⟨fun a b h1 h2 => String.ext (charListLe_antisymm a.data b.data h1 h2)⟩

instance : IsTotal Entry entryLe :=
  ⟨fun a b => Int.le_total a.number b.number⟩

instance : IsTrans Entry entryLe :=
  ⟨fun _ _ _ h1 h2 => le_trans h1 h2⟩

/-! ### C1 — scheduler watermark initialization -/

/-- C1 (amended): at startup `current_latest` is the Python fallback chain
`downloaded or (get_latest_number() or 0)` (scheduler.py:78): the highest
locally stored number when one exists and is nonzero; otherwise the
resolver's current latest when known and nonzero; otherwise 0.  The
resolver's latest is consulted only when no (nonzero) local chapter
exists — not combined through a maximum. -/
theorem c1_watermark_init_amended (subdirNames : List String) (entries : List Entry) :
    (∀ d : Int, getHighestDownloaded subdirNames = some d → d ≠ 0 →
      initCurrentLatest subdirNames entries = d) ∧
    (∀ l : Int,
      (getHighestDownloaded subdirNames = none ∨
        getHighestDownloaded subdirNames = some 0) →
      getLatestNumber entries = some l → l ≠ 0 →
      initCurrentLatest subdirNames entries = l) ∧
    ((getHighestDownloaded subdirNames = none ∨
        getHighestDownloaded subdirNames = some 0) →
      (getLatestNumber entries = none ∨ getLatestNumber entries = some 0) →
      initCurrentLatest subdirNames entries = 0) := by
  refine ⟨?_, ?_, ?_⟩
  · intro d hd hdz
    simp [initCurrentLatest, pyOrInt, hd, hdz]
  · intro l hn hl hlz
    rcases hn with hn | hn <;> simp [initCurrentLatest, pyOrInt, hn, hl, hlz]
  · intro hn hl
    rcases hn with hn | hn <;> rcases hl with hl | hl <;>
      simp [initCurrentLatest, pyOrInt, hn, hl]

/-- C1 witness: with storage directory `5` only, the watermark is 5; with
no storage — or only the falsy directory `0` — the resolver's latest 10 is
used; with no usable local number and the resolver's latest absent or
zero, it is 0. -/
theorem c1_watermark_init_amended_witness :
    initCurrentLatest ["5"] [⟨10, "A"⟩] = 5 ∧
    initCurrentLatest [] [⟨10, "A"⟩] = 10 ∧
    initCurrentLatest ["0"] [⟨10, "A"⟩] = 10 ∧
    initCurrentLatest [] [] = 0 ∧
    initCurrentLatest [] [⟨0, "A"⟩] = 0 :=
  ⟨(c1_watermark_init_amended ["5"] [⟨10, "A"⟩]).1 5 (by decide) (by decide),
   (c1_watermark_init_amended [] [⟨10, "A"⟩]).2.1 10 (Or.inl (by decide)) (by decide)
     (by decide),
   (c1_watermark_init_amended ["0"] [⟨10, "A"⟩]).2.1 10 (Or.inr (by decide)) (by decide)
     (by decide),
   (c1_watermark_init_amended [] []).2.2 (Or.inl (by decide)) (Or.inl (by decide)),
   (c1_watermark_init_amended [] [⟨0, "A"⟩]).2.2 (Or.inl (by decide))
     (Or.inr (by decide))⟩

/-- C1 counterexample: with highest local chapter 5 and resolver latest 10,
the code initializes the watermark to 5, not to
`max(highest local, resolver latest, 0) = 10` as claimed. -/
theorem c1_watermark_counterexample :
    initCurrentLatest ["5"] [⟨10, "A"⟩] = 5 ∧
    max (max (5 : Int) 10) 0 = 10 ∧ (5 : Int) ≠ 10 := by decide

/-! ### C2 — direct write in `_download_image` -/

/-- C2 counterexample: with the destination absent and response body
`[10, 20, 30]`, a write failing after one byte leaves the one-byte prefix
visible at the final destination path: `_download_image` has no
temp-file-then-rename step. -/
theorem c2_partial_file_counterexample :
    fsLookup (downloadImage [] "https://cdn.example/c/01.jpg" "data/1156/images/01.jpg"
        (.ok [10, 20, 30]) (some 1)).fs "data/1156/images/01.jpg" = some [10] ∧
    some [10] ≠ some [10, 20, 30] ∧
    some [10] ≠ (none : Option (List Nat)) := by decide

/-- C2 (amended): `_download_image` writes the response body directly to
the destination path, with no temp file and no rename: when the
destination is absent, a completed write leaves the full body there, and a
write failing after `k` bytes leaves the `k`-byte prefix visible at the
final path. -/
theorem c2_direct_write (fs : Fs) (url destPath : String) (content : List Nat) (k : Nat)
    (h : fsLookup fs destPath = none) :
    fsLookup (downloadImage fs url destPath (.ok content) none).fs destPath
      = some content ∧
    fsLookup (downloadImage fs url destPath (.ok content) (some k)).fs destPath
      = some (content.take k) := by
  unfold downloadImage
  simp [h, fsWrite, fsLookup]

/-- C2 witness: concrete full and partial writes at an absent path. -/
theorem c2_direct_write_witness :
    fsLookup (downloadImage [] "u" "d" (.ok [10, 20, 30]) none).fs "d"
      = some [10, 20, 30] ∧
    fsLookup (downloadImage [] "u" "d" (.ok [10, 20, 30]) (some 1)).fs "d"
      = some [10] :=
  ⟨(c2_direct_write [] "u" "d" [10, 20, 30] 1 rfl).1,
   by simpa using (c2_direct_write [] "u" "d" [10, 20, 30] 1 rfl).2⟩

/-! ### C7 — fail-soft refresh -/

/-- C7: `refresh` is fail-soft: when the catalog fetch raises, the cached
snapshot is kept unchanged; on success it is replaced wholesale by the
freshly fetched list, never partially. -/
theorem c7_refresh_fail_soft (entries newEntries : List Entry) (err : Unit) :
    refreshEntries entries (.error err) = entries ∧
    refreshEntries entries (.ok newEntries) = newEntries :=
  ⟨rfl, rfl⟩

/-! ### Download pipeline lemmas -/

theorem fsLookup_write (fs : Fs) (q p : String) (c : List Nat) :
    fsLookup (fsWrite fs q c) p = if q = p then some c else fsLookup fs p := by
  simp [fsWrite, fsLookup]

theorem downloadImage_fs_mono (fs : Fs) (url destPath : String)
    (resp : Except Unit (List Nat)) (w : Option Nat) (p : String)
    (h : (fsLookup fs p).isSome = true) :
    (fsLookup (downloadImage fs url destPath resp w).fs p).isSome = true := by
  unfold downloadImage
  by_cases he : (fsLookup fs destPath).isSome = true
  · simp [he, h]
  · cases resp with
    | error e => simp [he, h]
    | ok content =>
      cases w with
      | none =>
        simp only [he, Bool.false_eq_true, if_neg, ite_false, fsLookup_write]
        by_cases hq : destPath = p <;> simp [hq, h]
      | some k =>
        simp only [he, Bool.false_eq_true, if_neg, ite_false, fsLookup_write]
        by_cases hq : destPath = p <;> simp [hq, h]

theorem downloadImage_writes (fs : Fs) (url destPath : String) (content : List Nat) :
    (fsLookup (downloadImage fs url destPath (.ok content) none).fs destPath).isSome
      = true := by
  unfold downloadImage
  by_cases he : (fsLookup fs destPath).isSome = true
  · simp [he]
  · simp [he, fsLookup_write]

theorem downloadImage_cached (fs : Fs) (url destPath : String)
    (resp : Except Unit (List Nat)) (w : Option Nat)
    (h : (fsLookup fs destPath).isSome = true) :
    downloadImage fs url destPath resp w = ⟨fs, [], .ok⟩ := by
  unfold downloadImage
  simp [h]

theorem downloadPages_names (imagesDir : String) (body : String → List Nat) :
    ∀ (fs : Fs) (pages : List Page),
    (downloadPages imagesDir body fs pages).names = savedFilenames pages := by
  intro fs pages
  induction pages generalizing fs with
  | nil => simp [downloadPages, savedFilenames]
  | cons p rest ih =>
    cases hu : p.url with
    | none => simp [downloadPages, savedFilenames, List.filterMap_cons, hu, ih]
    | some u =>
      by_cases he : u = ""
      · simp [downloadPages, savedFilenames, List.filterMap_cons, hu, he, ih]
      · simp only [downloadPages, hu, if_neg he]
        simp [savedFilenames, List.filterMap_cons, hu, he] at ih ⊢
        exact ih _

theorem downloadPages_mono (imagesDir : String) (body : String → List Nat) :
    ∀ (pages : List Page) (fs : Fs) (p : String),
    (fsLookup fs p).isSome = true →
    (fsLookup (downloadPages imagesDir body fs pages).fs p).isSome = true := by
  intro pages
  induction pages with
  | nil => intro fs p h; simpa [downloadPages] using h
  | cons q rest ih =>
    intro fs p h
    cases hu : q.url with
    | none => simpa [downloadPages, hu] using ih fs p h
    | some u =>
      by_cases he : u = ""
      · simpa [downloadPages, hu, he] using ih fs p h
      · simp only [downloadPages, hu, if_neg he]
        exact ih _ p (downloadImage_fs_mono fs u _ _ none p h)

theorem downloadPages_establishes (imagesDir : String) (body : String → List Nat) :
    ∀ (pages : List Page) (fs : Fs) (pg : Page) (u : String),
    pg ∈ pages → pg.url = some u → u ≠ "" →
    (fsLookup (downloadPages imagesDir body fs pages).fs
      (imagesDir ++ "/" ++ lastSegment u)).isSome = true := by
  intro pages
  induction pages with
  | nil => intro fs pg u hmem; simp at hmem
  | cons q rest ih =>
    intro fs pg u hmem hurl hne
    rcases List.mem_cons.mp hmem with hq | hrest
    · subst hq
      simp only [downloadPages, hurl, if_neg hne]
      exact downloadPages_mono imagesDir body rest _ _
        (downloadImage_writes fs u _ (body u))
    · cases hu : q.url with
      | none => simpa [downloadPages, hu] using ih fs pg u hrest hurl hne
      | some v =>
        by_cases hv : v = ""
        · simpa [downloadPages, hu, hv] using ih fs pg u hrest hurl hne
        · simp only [downloadPages, hu, if_neg hv]
          exact ih _ pg u hrest hurl hne

theorem downloadPages_cached (imagesDir : String) (body : String → List Nat) :
    ∀ (pages : List Page) (fs : Fs),
    (∀ pg ∈ pages, ∀ u : String, pg.url = some u → u ≠ "" →
      (fsLookup fs (imagesDir ++ "/" ++ lastSegment u)).isSome = true) →
    downloadPages imagesDir body fs pages = ⟨fs, savedFilenames pages, []⟩ := by
  intro pages
  induction pages with
  | nil => intro fs _; simp [downloadPages, savedFilenames]
  | cons q rest ih =>
    intro fs h
    cases hu : q.url with
    | none =>
      simp only [downloadPages, hu]
      rw [ih fs fun pg hm => h pg (List.mem_cons_of_mem q hm)]
      simp [savedFilenames, List.filterMap_cons, hu]
    | some u =>
      by_cases he : u = ""
      · simp only [downloadPages, hu, if_neg, if_pos he]
        rw [ih fs fun pg hm => h pg (List.mem_cons_of_mem q hm)]
        simp [savedFilenames, List.filterMap_cons, hu, he]
      · have hc : (fsLookup fs (imagesDir ++ "/" ++ lastSegment u)).isSome = true :=
          h q (List.mem_cons_self q rest) u hu he
        simp only [downloadPages, hu, if_neg he]
        rw [downloadImage_cached fs u _ _ none hc]
        rw [ih fs fun pg hm => h pg (List.mem_cons_of_mem q hm)]
        simp [savedFilenames, List.filterMap_cons, hu, he]

/-! ### C3 — deterministic package order -/

/-- C3: the package page order is the lexicographic order of the locally
saved filenames: it is the same for any arrival permutation of the page
list (and is independent of cache state and response bodies), it is
sorted, and it contains exactly the saved filenames. -/
theorem c3_package_order (storageDir : String) (fs fs2 : Fs) (chapter : Int)
    (meta meta2 : ChapterMeta) (body body2 : String → List Nat)
    (hperm : meta.pages.Perm meta2.pages) :
    (downloadChapterRun storageDir fs chapter meta body).ordered
      = (downloadChapterRun storageDir fs2 chapter meta2 body2).ordered ∧
    List.Sorted strLe (downloadChapterRun storageDir fs chapter meta body).ordered ∧
    ((downloadChapterRun storageDir fs chapter meta body).ordered).Perm
      (savedFilenames meta.pages) := by
  have h1 : (downloadChapterRun storageDir fs chapter meta body).ordered
      = List.insertionSort strLe (savedFilenames meta.pages) := by
    simp [downloadChapterRun, downloadPages_names]
  have h2 : (downloadChapterRun storageDir fs2 chapter meta2 body2).ordered
      = List.insertionSort strLe (savedFilenames meta2.pages) := by
    simp [downloadChapterRun, downloadPages_names]
  have hpf : (savedFilenames meta.pages).Perm (savedFilenames meta2.pages) := by
    unfold savedFilenames
    exact hperm.filterMap _
  refine ⟨?_, ?_, ?_⟩
  · rw [h1, h2]
    refine List.eq_of_perm_of_sorted ?_ (List.sorted_insertionSort _ _)
      (List.sorted_insertionSort _ _)
    exact ((List.perm_insertionSort _ _).trans hpf).trans
      (List.perm_insertionSort _ _).symm
  · rw [h1]
    exact List.sorted_insertionSort _ _
  · rw [h1]
    exact List.perm_insertionSort _ _

/-- C3 witness: filenames 01.jpg, 02.jpg, 03-04.jpg, 05.jpg arriving as
03-04, 01, 05, 02 are packaged in the order 01, 02, 03-04, 05, identical
to the in-order arrival. -/
theorem c3_package_order_witness :
    (downloadChapterRun "data" [] 1156 exampleMeta exampleBody).ordered
      = (downloadChapterRun "data" [] 1156 exampleMetaSorted exampleBody).ordered ∧
    (downloadChapterRun "data" [] 1156 exampleMeta exampleBody).ordered
      = ["01.jpg", "02.jpg", "03-04.jpg", "05.jpg"] :=
  ⟨(c3_package_order "data" [] [] 1156 exampleMeta exampleMetaSorted exampleBody
      exampleBody (by decide)).1,
   by decide⟩

/-! ### C4 — idempotent chapter download -/

/-- C4: `download_chapter` run twice with unchanged metadata returns the
same package path both times, the second run performs no network request
at all (every destination already exists), and `_download_image` returns
without a request whenever its destination path exists. -/
theorem c4_download_idempotent (storageDir : String) (fs : Fs) (chapter : Int)
    (meta : ChapterMeta) (body body2 : String → List Nat) :
    (downloadChapterRun storageDir (downloadChapterRun storageDir fs chapter meta body).fs
        chapter meta body2).epubPath
      = (downloadChapterRun storageDir fs chapter meta body).epubPath ∧
    (downloadChapterRun storageDir (downloadChapterRun storageDir fs chapter meta body).fs
        chapter meta body2).requested = [] ∧
    (∀ (fs0 : Fs) (url destPath : String) (resp : Except Unit (List Nat))
        (w : Option Nat), (fsLookup fs0 destPath).isSome = true →
      downloadImage fs0 url destPath resp w = ⟨fs0, [], .ok⟩) := by
  refine ⟨rfl, ?_, fun fs0 url destPath resp w h => downloadImage_cached fs0 url destPath resp w h⟩
  have hall : ∀ pg ∈ meta.pages, ∀ u : String, pg.url = some u → u ≠ "" →
      (fsLookup (downloadChapterRun storageDir fs chapter meta body).fs
        (storageDir ++ "/" ++ toString chapter ++ "/images" ++ "/" ++ lastSegment u)).isSome
        = true := by
    intro pg hm u hurl hne
    simp only [downloadChapterRun]
    exact downloadPages_establishes _ body meta.pages fs pg u hm hurl hne
  simp only [downloadChapterRun] at hall ⊢
  rw [downloadPages_cached _ body2 meta.pages _ hall]

/-- C4 witness: a concrete second run issues no request, and a cached
destination short-circuits `_download_image`. -/
theorem c4_download_idempotent_witness :
    (downloadChapterRun "data" (downloadChapterRun "data" [] 1156 exampleMeta
        exampleBody).fs 1156 exampleMeta exampleBody).requested = [] ∧
    downloadImage [("d", [1])] "u" "d" (.ok [2]) none = ⟨[("d", [1])], [], .ok⟩ :=
  ⟨(c4_download_idempotent "data" [] 1156 exampleMeta exampleBody exampleBody).2.1,
   (c4_download_idempotent "data" [] 1156 exampleMeta exampleBody exampleBody).2.2
     [("d", [1])] "u" "d" (.ok [2]) none (by decide)⟩

/-! ### C5 — update detection -/

/-- C5: `check_for_update` returns exactly the snapshot entries whose
number is strictly greater than `current_latest` (as a permutation of the
filtered snapshot, every returned entry above the watermark), sorted
ascending by number, and the empty list — not an error — when no entry
qualifies. -/
theorem c5_check_for_update (entries : List Entry) (currentLatest : Int) :
    (checkForUpdate entries currentLatest).Perm
      (entries.filter fun e => currentLatest < e.number) ∧
    (∀ e ∈ checkForUpdate entries currentLatest, currentLatest < e.number) ∧
    List.Sorted entryLe (checkForUpdate entries currentLatest) ∧
    ((∀ e ∈ entries, ¬ currentLatest < e.number) →
      checkForUpdate entries currentLatest = []) := by
  refine ⟨List.perm_insertionSort _ _, ?_, List.sorted_insertionSort _ _, ?_⟩
  · intro e he
    have hmem : e ∈ entries.filter fun e => currentLatest < e.number :=
      (List.perm_insertionSort _ _).subset he
    simpa using (List.mem_filter.mp hmem).2
  · intro h
    have hnil : (entries.filter fun e => currentLatest < e.number) = [] := by
      rw [List.filter_eq_nil_iff]
      intro a ha
      simpa using h a ha
    simp [checkForUpdate, hnil]

/-- C5 witness: snapshot numbered 10, 12, 11 with watermark 10 yields the
entries numbered 11 then 12; with watermark 13 it yields the empty list. -/
theorem c5_check_for_update_witness :
    checkForUpdate exampleSnapshot 10 = [⟨11, "C"⟩, ⟨12, "B"⟩] ∧
    (∀ e ∈ checkForUpdate exampleSnapshot 10, (10 : Int) < e.number) ∧
    checkForUpdate exampleSnapshot 13 = [] :=
  ⟨by decide,
   (c5_check_for_update exampleSnapshot 10).2.1,
   (c5_check_for_update exampleSnapshot 13).2.2.2 (by decide)⟩

/-! ### C6 — failure classification in `fetch_chapter_data` -/

/-- C6: a 404 response or a body carrying the unavailability marker yields
`NotAvailable` with no extraction attempted (uniformly in the rest of the
input, so before any data extraction); a non-404, marker-free response
whose effective body lacks the `window.__data` block yields `ParseError`
after attempting extraction; the two failure kinds are distinct values. -/
theorem c6_failure_classification (status : Nat) (html : String) (vs : Option String) :
    (status = 404 →
      fetchChapterData status html vs = ⟨.error .notAvailable, false⟩) ∧
    (containsMarker html = true →
      fetchChapterData status html vs = ⟨.error .notAvailable, false⟩) ∧
    (status ≠ 404 → containsMarker html = false →
      extractWindowData (vs.getD html) = none →
      fetchChapterData status html vs = ⟨.error .parseError, true⟩) ∧
    FetchFailure.notAvailable ≠ FetchFailure.parseError := by
  refine ⟨?_, ?_, ?_, by decide⟩
  · intro h
    simp [fetchChapterData, h]
  · intro h
    by_cases h4 : status = 404
    · simp [fetchChapterData, h4]
    · simp [fetchChapterData, h4, h]
  · intro h4 hm hx
    simp [fetchChapterData, h4, hm, hx]

/-- C6 witness: a 404, a marker-bearing 200 body, and a blockless 200 body
classify as claimed. -/
theorem c6_failure_classification_witness :
    fetchChapterData 404 "<html></html>" none
      = ⟨.error .notAvailable, false⟩ ∧
    fetchChapterData 200 unavailabilityMarker none
      = ⟨.error .notAvailable, false⟩ ∧
    fetchChapterData 200 "<html>kein Datenblock</html>" none
      = ⟨.error .parseError, true⟩ :=
  ⟨(c6_failure_classification 404 "<html></html>" none).1 rfl,
   (c6_failure_classification 200 unavailabilityMarker none).2.1 (by decide),
   (c6_failure_classification 200 "<html>kein Datenblock</html>" none).2.2.1
     (by decide) (by decide) (by decide)⟩

/-! ### C8 — channel isolation in combined notifications -/

theorem pushLoop_all_ok (pushSend : Entry → Except Unit Nat) :
    ∀ entries : List Entry, (∀ e ∈ entries, ∃ n, pushSend e = .ok n) →
    (pushLoop pushSend entries).2 = entries.map fun e => (e.number, e.name) := by
  intro entries
  induction entries with
  | nil => intro _; rfl
  | cons e rest ih =>
    intro h
    obtain ⟨n, hn⟩ := h e (List.mem_cons_self e rest)
    simp [pushLoop, hn, ih fun x hx => h x (List.mem_cons_of_mem e hx)]

/-- C8: with a non-empty batch, an email-channel failure changes neither
the push count nor the chapters processed (both equal their values under
an email success), the per-channel counts and totals are still returned
(email 0, total the batch size), and when every push send succeeds the
chapters processed cover the whole batch. -/
theorem c8_channel_isolation (newEntries : List Entry) (recipient : String)
    (pushSend : Entry → Except Unit Nat) (h : newEntries ≠ []) :
    (sendCombinedNotifications newEntries (some recipient) true (.error ())
        pushSend).push_sent
      = (sendCombinedNotifications newEntries (some recipient) true (.ok ())
        pushSend).push_sent ∧
    (sendCombinedNotifications newEntries (some recipient) true (.error ())
        pushSend).chapters
      = (sendCombinedNotifications newEntries (some recipient) true (.ok ())
        pushSend).chapters ∧
    (sendCombinedNotifications newEntries (some recipient) true (.error ())
        pushSend).total_chapters = newEntries.length ∧
    (sendCombinedNotifications newEntries (some recipient) true (.error ())
        pushSend).email_sent = 0 ∧
    ((∀ e ∈ newEntries, ∃ n, pushSend e = .ok n) →
      (sendCombinedNotifications newEntries (some recipient) true (.error ())
          pushSend).chapters
        = newEntries.map fun e => (e.number, e.name)) := by
  have hne : newEntries.isEmpty = false := by
    simpa [List.isEmpty_iff] using h
  refine ⟨?_, ?_, ?_, ?_, ?_⟩
  · simp [sendCombinedNotifications, hne]
  · simp [sendCombinedNotifications, hne]
  · simp [sendCombinedNotifications, hne]
  · simp [sendCombinedNotifications, hne]
  · intro hall
    simpa [sendCombinedNotifications, hne] using pushLoop_all_ok pushSend newEntries hall

/-- C8 witness: with one entry, a failing email channel, and a succeeding
push channel, the entry is still push-processed and the counts returned. -/
theorem c8_channel_isolation_witness :
    (sendCombinedNotifications [⟨1156, "K"⟩] (some "r@example.com") true (.error ())
        alwaysOkPush).chapters = [(1156, "K")] ∧
    (sendCombinedNotifications [⟨1156, "K"⟩] (some "r@example.com") true (.error ())
        alwaysOkPush).email_sent = 0 :=
  ⟨by simpa using
      (c8_channel_isolation [⟨1156, "K"⟩] "r@example.com" alwaysOkPush (by decide)).2.2.2.2
        fun e he => ⟨3, rfl⟩,
   (c8_channel_isolation [⟨1156, "K"⟩] "r@example.com" alwaysOkPush (by decide)).2.2.2.1⟩

/-! ### C9 — fail-fast credential validation -/

/-- C9 counterexample: a call with an empty batch and every credential
missing returns normally — no `KeyError` is raised — so the claim's
universal statement over all calls fails on empty batches. -/
theorem c9_empty_batch_counterexample :
    sendEmailNotifications [] [] alwaysOkSend = (.ok (), []) ∧
    missingSmtpKeys [] = requiredSmtpKeys ∧ requiredSmtpKeys ≠ [] :=
  ⟨rfl, by decide, by decide⟩

/-- C9 (amended): for every call with a non-empty batch and an incomplete
credential set (any of host, port, username, password, sender missing), a
`KeyError` carrying the missing keys is raised and no send is attempted;
a call with an empty batch returns without error and without sends even
when credentials are incomplete. -/
theorem c9_fail_fast_amended (cfgKeys : List String) (newEntries : List Entry)
    (sendOutcome : Entry → Except Unit Unit)
    (hne : newEntries ≠ []) (hmiss : missingSmtpKeys cfgKeys ≠ []) :
    sendEmailNotifications cfgKeys newEntries sendOutcome
      = (.error (.keyError (missingSmtpKeys cfgKeys)), []) := by
  have h1 : newEntries.isEmpty = false := by simpa [List.isEmpty_iff] using hne
  have h2 : (missingSmtpKeys cfgKeys).isEmpty = false := by
    simpa [List.isEmpty_iff] using hmiss
  simp [sendEmailNotifications, h1, h2]

/-- C9 witness: config with only `host` and a one-entry batch raises the
configuration error with no send attempted. -/
theorem c9_fail_fast_amended_witness :
    sendEmailNotifications ["host"] [⟨1156, "K"⟩] alwaysOkSend
      = (.error (.keyError (missingSmtpKeys ["host"])), []) :=
  c9_fail_fast_amended ["host"] [⟨1156, "K"⟩] alwaysOkSend (by decide) (by decide)

/-! ### C10 — push subscription endpoint uniqueness -/

/-- C10: the subscription-store invariant (structural validity of every
stored dict and pairwise-distinct endpoints) is preserved by `subscribe`
and `unsubscribe`; `subscribe` answers `False` storing nothing for an
invalid dict and `True` without appending for an already-stored endpoint;
`unsubscribe` removes every subscription with the given endpoint and
answers `True` exactly when at least one was removed. -/
theorem c10_endpoint_uniqueness (subs : List Subscription) (s : Subscription) (ep : String)
    (hinv : subsInvariant subs) :
    subsInvariant (subscribe subs s).1 ∧
    subsInvariant (unsubscribe subs ep).1 ∧
    (validSubscription s = false → subscribe subs s = (subs, false)) ∧
    (validSubscription s = true → (∃ ex ∈ subs, ex.endpoint = s.endpoint) →
      subscribe subs s = (subs, true)) ∧
    (∀ t ∈ (unsubscribe subs ep).1, t.endpoint ≠ some ep) ∧
    ((unsubscribe subs ep).2 = true ↔ ∃ t ∈ subs, t.endpoint = some ep) := by
  obtain ⟨hval, hnd⟩ := hinv
  refine ⟨?_, ?_, ?_, ?_, ?_, ?_⟩
  · by_cases h1 : hasSubscriptionFields s
    · by_cases h2 : hasRequiredSubKeys s
      · by_cases h3 : (subs.any fun ex => decide (ex.endpoint = s.endpoint)) = true
        · simpa [subscribe, h1, h2, h3] using ⟨hval, hnd⟩
        · have h3f : (subs.any fun ex => decide (ex.endpoint = s.endpoint)) = false :=
            Bool.eq_false_iff.mpr h3
          have hnot : ∀ ex ∈ subs, ex.endpoint ≠ s.endpoint := by
            intro ex hm
            have := List.any_eq_false.mp h3f ex hm
            simpa using this
          have hsub : (subscribe subs s).1 = subs ++ [s] := by
            simp [subscribe, h1, h2, h3f]
          rw [hsub]
          constructor
          · intro t ht
            rcases List.mem_append.mp ht with hm | hm
            · exact hval t hm
            · have ht2 : t = s := by simpa using hm
              subst ht2
              simp [validSubscription, h1, h2]
          · rw [List.map_append, List.nodup_append]
            refine ⟨hnd, by simp, ?_⟩
            intro a ha hb
            simp only [List.map_cons, List.map_nil, List.mem_singleton] at hb
            obtain ⟨t, htm, hte⟩ := List.mem_map.mp ha
            exact hnot t htm (hte.trans hb)
      · simpa [subscribe, h1, h2] using ⟨hval, hnd⟩
    · simpa [subscribe, h1] using ⟨hval, hnd⟩
  · constructor
    · intro t ht
      exact hval t (List.mem_of_mem_filter ht)
    · exact List.Nodup.sublist ((List.filter_sublist subs).map _) hnd
  · intro hv
    have : ¬(hasSubscriptionFields s ∧ hasRequiredSubKeys s) := by
      intro ⟨ha, hb⟩
      simp [validSubscription, ha, hb] at hv
    by_cases h1 : hasSubscriptionFields s
    · have h2 : ¬hasRequiredSubKeys s = true := fun hb => this ⟨h1, hb⟩
      simp [subscribe, h1, h2]
    · simp [subscribe, h1]
  · intro hv hex
    have h1 : hasSubscriptionFields s = true := by
      simp [validSubscription] at hv
      exact hv.1
    have h2 : hasRequiredSubKeys s = true := by
      simp [validSubscription] at hv
      exact hv.2
    obtain ⟨ex, hm, he⟩ := hex
    have h3 : (subs.any fun ex => decide (ex.endpoint = s.endpoint)) = true :=
      List.any_eq_true.mpr ⟨ex, hm, by simpa using he⟩
    simp [subscribe, h1, h2, h3]
  · intro t ht
    have := (List.mem_filter.mp ht).2
    simpa using this
  · simp only [unsubscribe, decide_eq_true_eq]
    rw [List.length_filter_lt_length_iff_exists]
    constructor
    · rintro ⟨t, hm, hne⟩
      exact ⟨t, hm, by simpa using hne⟩
    · rintro ⟨t, hm, he⟩
      exact ⟨t, hm, by simpa using he⟩

/-- C10 witness: re-subscribing a stored endpoint answers `True` without
growing the store, unsubscribing a stored endpoint reports a removal, and
an invalid dict is rejected. -/
theorem c10_endpoint_uniqueness_witness :
    subscribe [exampleSub] exampleSub = ([exampleSub], true) ∧
    (unsubscribe [exampleSub] "https://push.example/ep1").2 = true ∧
    subscribe [] ⟨none, none⟩ = ([], false) :=
  ⟨(c10_endpoint_uniqueness [exampleSub] exampleSub "x"
      ⟨by intro t ht; rw [List.mem_singleton.mp ht]; decide, by simp⟩).2.2.2.1
      (by decide) ⟨exampleSub, List.mem_singleton_self _, rfl⟩,
   (c10_endpoint_uniqueness [exampleSub] exampleSub "https://push.example/ep1"
      ⟨by intro t ht; rw [List.mem_singleton.mp ht]; decide, by simp⟩).2.2.2.2.2.mpr
      ⟨exampleSub, List.mem_singleton_self _, by decide⟩,
   (c10_endpoint_uniqueness [] ⟨none, none⟩ "x" ⟨by simp, by simp⟩).2.2.1 (by decide)⟩

end OnePieceTube
